import Mathlib

/-!
Shallow embedding of the analytics routes of the rapor-sistemi backend
(src/routes/analytics, together with the supabase service client it uses).

Timestamps are modelled as natural numbers counting whole hours since the
Unix epoch (the code manipulates ISO-8601 strings via JavaScript `Date`;
truncation of a timestamp to a UTC calendar day, `toISOString().split('T')[0]`,
becomes division by 24, and the ISO date string of a day is identified with
its day number).  The process runs with TZ=UTC (the repository ships a plain
Docker image), so JavaScript's local-time `getDate`/`setDate`/`getDay` agree
with UTC.  The Unix epoch day (1970-01-01) was a Thursday, so JavaScript's
`getDay` (0 = Sunday) of an hour-timestamp `t` is `(t / 24 + 4) % 7`.

A central point of the embedding: supabase-js query builders are mutable.
Every filter method of `PostgrestFilterBuilder` (`eq`, `neq`, `lt`, `gte`,
`or`, ...) appends its condition to the builder's own URL search parameters
and returns the same builder object, and `await`-ing the builder just executes
whatever filters have accumulated on it so far.  The dashboard route reuses
one `tasksQuery` (and one `issuesQuery`) across several awaits, so each later
aggregate runs with all previously added filters still attached.  The
embedding threads this builder state explicitly.
-/

namespace RaporAnalytics

/-! ## Data model (§3 of the spec, read from the supabase tables) -/

inductive TaskStatus where
  | not_started
  | in_progress
  | completed
  | blocked
deriving DecidableEq

inductive TaskPriority where
  | low
  | medium
  | high
  | critical
deriving DecidableEq

/-- A row of the `tasks` table, with the columns the analytics routes read. -/
structure Task where
  assigned_to : Option String
  created_by : String
  status : TaskStatus
  priority : TaskPriority
  due_date : Option Nat
  deadline : Option Nat
  created_at : Nat
  updated_at : Option Nat
  completed_at : Option Nat
  late_completion : Bool
deriving DecidableEq

inductive IssueStatus where
  | pending_assignment
  | assigned
  | in_progress
  | resolved
  | closed
deriving DecidableEq

/-- A row of the `issues` table, with the columns the analytics routes read. -/
structure Issue where
  reported_by : String
  suggested_assignee_id : Option String
  assigned_to : Option String
  status : IssueStatus
  priority : TaskPriority
  created_at : Nat
  resolved_at : Option Nat
deriving DecidableEq

/-- A row of the `profiles` table. -/
structure Profile where
  id : String
  full_name : String
  email : String
  job_description : String
  score : Option Nat
  weekly_hours : Option Nat
deriving DecidableEq

/-! ## Scope resolver (analytics routes, lines 95-98 / 207-209 / 324-325)

Non-admin callers only see rows they are attached to; admin sees all rows. -/

/-- Task visibility: `assigned_to.eq.userId,created_by.eq.userId` (an `.or`
filter), skipped entirely for admins. -/
def scopeTask (isAdmin : Bool) (uid : String) (t : Task) : Bool :=
  isAdmin || (t.assigned_to == some uid || t.created_by == uid)

/-- Issue visibility:
`reported_by.eq.userId,suggested_assignee_id.eq.userId,assigned_to.eq.userId`,
skipped entirely for admins. -/
def scopeIssue (isAdmin : Bool) (uid : String) (i : Issue) : Bool :=
  isAdmin || (i.reported_by == uid || i.suggested_assignee_id == some uid
    || i.assigned_to == some uid)

/-! ## Query primitives

`countQ`/`dataQ` model one awaited supabase query: on a store failure the
destructured `count`/`data` fields are `null` (the routes below never check
the `error` field where they use these), otherwise the filtered rows. -/

def countQ (fail : Bool) (ds : List α) (p : α → Bool) : Option Nat :=
  if fail then none else some (ds.filter p).length

def dataQ (fail : Bool) (ds : List α) (p : α → Bool) : Option (List α) :=
  if fail then none else some (ds.filter p)

/-- JavaScript `xs?.filter(p).length || 0` over a possibly-null row set. -/
def optCount (d : Option (List α)) (p : α → Bool) : Nat :=
  match d with
  | some l => (l.filter p).length
  | none => 0

/-- PostgREST `lt` on a nullable date column: a null column never satisfies
the comparison. -/
def dueBefore (d : Option Nat) (now : Nat) : Bool :=
  match d with
  | some v => decide (v < now)
  | none => false

/-- JavaScript `Math.round(c / t * 100)` for naturals `c ≤ t`, `t > 0`:
round half away from zero, i.e. `⌊(100·c/t) + 1/2⌋ = (200·c + t) / (2·t)`. -/
def mathRound100 (c t : Nat) : Nat :=
  (200 * c + t) / (2 * t)

/-! ## Dashboard metrics (GET /dashboard, lines 85-185) -/

structure PrioCounts where
  low : Nat
  medium : Nat
  high : Nat
  critical : Nat
deriving DecidableEq

structure StatusCounts where
  not_started : Nat
  in_progress : Nat
  completed : Nat
  blocked : Nat
deriving DecidableEq

structure TaskMetrics where
  total : Nat
  completed : Nat
  inProgress : Nat
  overdue : Nat
  completionRate : Nat
  byPriority : PrioCounts
  byStatus : StatusCounts
deriving DecidableEq

structure IssueStatusCounts where
  pending_assignment : Nat
  assigned : Nat
  in_progress : Nat
  resolved : Nat
  closed : Nat
deriving DecidableEq

structure IssueMetrics where
  total : Nat
  pending : Nat
  byPriority : PrioCounts
  byStatus : IssueStatusCounts
deriving DecidableEq

structure DashboardMetrics where
  tasks : TaskMetrics
  issues : IssueMetrics
deriving DecidableEq

/-- The dashboard computation, lines 91-174.  `tq0`/`iq0` are the initial
builder states (the scope filter); each `.eq`/`.lt`/`.neq` call below mutates
the builder, so the successive states `tq1`, `tq2`, `tq3` (and `iq1`)
accumulate every earlier filter, exactly as the reused supabase builders do.
`dbFail` models the store failing (the route never reads `error` here, so
counts and data just come back `null`). -/
def dashboardCompute (dbFail : Bool) (isAdmin : Bool) (uid : String) (now : Nat)
    (tasksTable : List Task) (issuesTable : List Issue) : DashboardMetrics :=
  let tq0 : Task → Bool := fun t => scopeTask isAdmin uid t
  let iq0 : Issue → Bool := fun i => scopeIssue isAdmin uid i
  -- const { count: totalTasks } = await tasksQuery;
  let totalTasks := countQ dbFail tasksTable tq0
  -- await tasksQuery.eq('status', 'completed')  (mutates tasksQuery)
  let tq1 : Task → Bool := fun t => tq0 t && t.status == TaskStatus.completed
  let completedTasks := countQ dbFail tasksTable tq1
  -- await tasksQuery.eq('status', 'in_progress')  (mutates again)
  let tq2 : Task → Bool := fun t => tq1 t && t.status == TaskStatus.in_progress
  let inProgressTasks := countQ dbFail tasksTable tq2
  -- await issuesQuery.eq('status', 'pending_assignment')  (mutates issuesQuery)
  let iq1 : Issue → Bool := fun i => iq0 i && i.status == IssueStatus.pending_assignment
  let pendingIssues := countQ dbFail issuesTable iq1
  -- await tasksQuery.lt('due_date', now).neq('status', 'completed')
  let tq3 : Task → Bool := fun t =>
    tq2 t && dueBefore t.due_date now && !(t.status == TaskStatus.completed)
  let overdueTasks := countQ dbFail tasksTable tq3
  -- completionRate: totalTasks && totalTasks > 0 ? Math.round(...) : 0
  let completionRate :=
    match totalTasks with
    | some tt => if 0 < tt then mathRound100 (completedTasks.getD 0) tt else 0
    | none => 0
  -- const { data: tasksByPriority } = await tasksQuery;  (state is now tq3)
  let tasksByPriority := dataQ dbFail tasksTable tq3
  let priorityBreakdown : PrioCounts :=
    { low := optCount tasksByPriority (fun t => t.priority == TaskPriority.low)
      medium := optCount tasksByPriority (fun t => t.priority == TaskPriority.medium)
      high := optCount tasksByPriority (fun t => t.priority == TaskPriority.high)
      critical := optCount tasksByPriority (fun t => t.priority == TaskPriority.critical) }
  let statusBreakdown : StatusCounts :=
    { not_started := optCount tasksByPriority (fun t => t.status == TaskStatus.not_started)
      in_progress := inProgressTasks.getD 0
      completed := completedTasks.getD 0
      blocked := optCount tasksByPriority (fun t => t.status == TaskStatus.blocked) }
  -- const { data: issuesByPriority } = await issuesQuery;  (state is now iq1)
  let issuesByPriority := dataQ dbFail issuesTable iq1
  let issuePriorityBreakdown : PrioCounts :=
    { low := optCount issuesByPriority (fun i => i.priority == TaskPriority.low)
      medium := optCount issuesByPriority (fun i => i.priority == TaskPriority.medium)
      high := optCount issuesByPriority (fun i => i.priority == TaskPriority.high)
      critical := optCount issuesByPriority (fun i => i.priority == TaskPriority.critical) }
  let issueStatusBreakdown : IssueStatusCounts :=
    { pending_assignment := pendingIssues.getD 0
      assigned := optCount issuesByPriority (fun i => i.status == IssueStatus.assigned)
      in_progress := optCount issuesByPriority (fun i => i.status == IssueStatus.in_progress)
      resolved := optCount issuesByPriority (fun i => i.status == IssueStatus.resolved)
      closed := optCount issuesByPriority (fun i => i.status == IssueStatus.closed) }
  { tasks :=
      { total := totalTasks.getD 0
        completed := completedTasks.getD 0
        inProgress := inProgressTasks.getD 0
        overdue := overdueTasks.getD 0
        completionRate := completionRate
        byPriority := priorityBreakdown
        byStatus := statusBreakdown }
    issues :=
      { total := (issuesByPriority.getD []).length
        pending := pendingIssues.getD 0
        byPriority := issuePriorityBreakdown
        byStatus := issueStatusBreakdown } }

/-- The dashboard route's HTTP response: the success path always answers 200
with the metrics (no `error` field of any query result is ever inspected). -/
structure DashResp where
  status : Nat
  data : Option DashboardMetrics
deriving DecidableEq

/-- GET /dashboard, the non-throwing path: always `res.json({ data: metrics })`,
status 200, even when every store query failed. -/
def dashboardHandler (dbFail : Bool) (isAdmin : Bool) (uid : String) (now : Nat)
    (tasksTable : List Task) (issuesTable : List Issue) : DashResp :=
  { status := 200
    data := some (dashboardCompute dbFail isAdmin uid now tasksTable issuesTable) }

/-! ## Completion trend (GET /task-completion-trend, lines 188-252) -/

/-- Truncation of an hour-timestamp to its UTC calendar day
(`toISOString().split('T')[0]`, with the date string identified with the day
number). -/
def dayOfHour (t : Nat) : Nat := t / 24

structure TrendBucket where
  date : Nat
  created : Nat
  completed : Nat
deriving DecidableEq

/-- The row set fetched by the trend query, lines 201-209: scoped tasks whose
`created_at` lies in `[startDate, endDate]` where `endDate = now` and
`startDate = now - days·24h` (the JS `setDate` subtraction keeps the current
time of day). -/
def trendFetched (isAdmin : Bool) (uid : String) (now days : Nat)
    (ds : List Task) : List Task :=
  ds.filter (fun t =>
    scopeTask isAdmin uid t
      && decide (now - 24 * days ≤ t.created_at) && decide (t.created_at ≤ now))

/-- The bucket loop, lines 222-241: for each `i < days` the bucket date is the
UTC day of `startDate + i` days, `created` counts fetched tasks created on that
day, and `completed` counts fetched tasks with status completed and a non-null
`updated_at` falling on that day. -/
def trendBuckets (now days : Nat) (tasks : List Task) : List TrendBucket :=
  (List.range days).map (fun i =>
    let d := dayOfHour (now - 24 * days + 24 * i)
    { date := d
      created := (tasks.filter (fun t => dayOfHour t.created_at == d)).length
      completed := (tasks.filter (fun t =>
        t.status == TaskStatus.completed
          && (match t.updated_at with
              | some u2 => dayOfHour u2 == d
              | none => false))).length })

/-- The computed trend payload: buckets over the fetched (window-clipped)
row set. -/
def taskCompletionTrend (isAdmin : Bool) (uid : String) (now days : Nat)
    (ds : List Task) : List TrendBucket :=
  trendBuckets now days (trendFetched isAdmin uid now days ds)

/-- JavaScript `parseInt(s, 10)`: skip leading whitespace, take an optional
sign and the longest digit run; `none` is NaN. -/
def parseIntJS (s : String) : Option Int :=
  let cs := s.toList.dropWhile Char.isWhitespace
  let core : List Char → Option Int := fun l =>
    let ds := l.takeWhile Char.isDigit
    if ds.isEmpty then none
    else some (Int.ofNat (ds.foldl (fun acc c => acc * 10 + (c.toNat - 48)) 0))
  match cs with
  | '-' :: rest => (core rest).map (fun n => -n)
  | '+' :: rest => core rest
  | _ => core cs

structure TrendResp where
  status : Nat
  error : Option String := none
  message : Option String := none
  data : Option (List TrendBucket) := none
deriving DecidableEq

/-- GET /task-completion-trend.  `daysParam` is the `days` query parameter
(`none` when absent, in which case the destructuring default `'30'` applies).
A non-numeric `days` makes `parseInt` return NaN, `startDate` becomes an
Invalid Date, and `startDate.toISOString()` throws a RangeError
(`Invalid time value`) that the catch block turns into a 500.  With a numeric
`days` the query runs; a store error is checked here (lines 213-219) and
answered with 400 plus the underlying message.  Otherwise the bucket loop runs
`daysNum` times — zero or negative `daysNum` runs it zero times and a 200 with
an empty list goes out. -/
def trendHandler (daysParam : Option String) (isAdmin : Bool) (uid : String)
    (now : Nat) (dbErr : Option String) (ds : List Task) : TrendResp :=
  let daysStr := daysParam.getD "30"
  match parseIntJS daysStr with
  | none =>
      { status := 500, error := some "Internal server error"
        message := some "Invalid time value" }
  | some dn =>
      match dbErr with
      | some msg =>
          { status := 400, error := some "Database error", message := some msg }
      | none =>
          { status := 200
            data := some (taskCompletionTrend isAdmin uid now dn.toNat ds) }

/-! ## Catch blocks (every route, e.g. lines 179-184, 246-251) -/

structure ErrResp where
  status : Nat
  error : String
  message : String
deriving DecidableEq

/-- The catch handler shared by all analytics routes:
`res.status(500).json({ error: 'Internal server error', message: error
instanceof Error ? error.message : 'Unknown error' })`.  `emsg` is the thrown
exception's message (`none` for a non-Error throw). -/
def catchResponse (emsg : Option String) : ErrResp :=
  { status := 500, error := "Internal server error"
    message := emsg.getD "Unknown error" }

/-! ## Employees summary (GET /employees-summary, lines 382-447) -/

/-- JavaScript `getDay()` (0 = Sunday) of an hour-timestamp under TZ=UTC:
the epoch day was a Thursday. -/
def getDayJS (t : Nat) : Nat := (t / 24 + 4) % 7

/-- Lines 405-406: `weekStart.setDate(weekStart.getDate() - weekStart.getDay())`
— the most recent Sunday, keeping the current time of day. -/
def weekStartJS (now : Nat) : Nat := now - 24 * getDayJS now

structure EmployeeSummary where
  profile : Profile
  activeTasks : Nat
  completedThisWeek : Nat
  lateTasks : Nat
  overdueTasks : Nat
deriving DecidableEq

/-- Per-profile summary computation, lines 396-436.  `gte('completed_at', ...)`
on a null `completed_at` is false (SQL null comparison). -/
def employeeSummaryOf (tasks : List Task) (now : Nat) (p : Profile) : EmployeeSummary :=
  { profile := p
    activeTasks := (tasks.filter (fun t =>
      t.assigned_to == some p.id && !(t.status == TaskStatus.completed))).length
    completedThisWeek := (tasks.filter (fun t =>
      t.assigned_to == some p.id && t.status == TaskStatus.completed
        && (match t.completed_at with
            | some c => decide (weekStartJS now ≤ c)
            | none => false))).length
    lateTasks := (tasks.filter (fun t =>
      t.assigned_to == some p.id && t.late_completion)).length
    overdueTasks := (tasks.filter (fun t =>
      t.assigned_to == some p.id && dueBefore t.deadline now
        && !(t.status == TaskStatus.completed))).length }

/-! ## Recommendations (GET /recommendations, lines 450-544) -/

/-- One entry of the per-profile workload snapshot, lines 466-487. -/
structure WorkUser where
  id : String
  full_name : String
  job_description : String
  score : Option Nat
  activeTasks : Nat
  overdueTasks : Nat
deriving DecidableEq

/-- Workload snapshot of one profile: active (non-completed) assigned tasks and
overdue (past `deadline`, not completed) assigned tasks. -/
def workloadOf (tasks : List Task) (now : Nat) (p : Profile) : WorkUser :=
  { id := p.id
    full_name := p.full_name
    job_description := p.job_description
    score := p.score
    activeTasks := (tasks.filter (fun t =>
      t.assigned_to == some p.id && !(t.status == TaskStatus.completed))).length
    overdueTasks := (tasks.filter (fun t =>
      t.assigned_to == some p.id && dueBefore t.deadline now
        && !(t.status == TaskStatus.completed))).length }

/-- JavaScript `u.score || 100`: null (absent) and the falsy value 0 are both
replaced by the default 100. -/
def jsScoreDefault (s : Option Nat) : Nat :=
  match s with
  | none => 100
  | some v => if v = 0 then 100 else v

/-- Rule 1 predicate, line 490: more than 10 active tasks. -/
def isOverloaded (u : WorkUser) : Bool := decide (10 < u.activeTasks)

/-- Rule 2 predicate, line 502: fewer than 2 active tasks. -/
def isUnderutilized (u : WorkUser) : Bool := decide (u.activeTasks < 2)

/-- Rule 3 predicate, line 514: at least one overdue task. -/
def hasOverdue (u : WorkUser) : Bool := decide (0 < u.overdueTasks)

/-- Rule 4 predicate, line 526: `(u.score || 100) < 70`. -/
def isLowScore (u : WorkUser) : Bool := decide (jsScoreDefault u.score < 70)

/-- Line 526: `workloadData.filter(u => (u.score || 100) < 70)`. -/
def lowScoreUsers (ws : List WorkUser) : List WorkUser :=
  ws.filter isLowScore

structure Recommendation where
  rtype : String
  severity : String
  title : String
  affectedUsers : List String
deriving DecidableEq

/-- Rule 3 annotates each affected user with the overdue count, line 521. -/
def overdueLabel (u : WorkUser) : String :=
  u.full_name ++ " (" ++ toString u.overdueTasks ++ " geciken)"

/-- The recommendation synthesis, lines 489-535: the four rules each filter the
same `workloadData` snapshot and push one entry when their match set is
non-empty, in source order. -/
def recommendationsOf (ws : List WorkUser) : List Recommendation :=
  let overloaded := ws.filter isOverloaded
  let recs1 : List Recommendation :=
    if 0 < overloaded.length then
      [{ rtype := "workload", severity := "warning"
         title := "Aşırı İş Yükü Tespit Edildi"
         affectedUsers := overloaded.map (fun u => u.full_name) }]
    else []
  let underutilized := ws.filter isUnderutilized
  let recs2 := recs1 ++
    (if 0 < underutilized.length then
      [{ rtype := "workload", severity := "info"
         title := "Düşük İş Yükü"
         affectedUsers := underutilized.map (fun u => u.full_name) }]
    else [])
  let withOverdue := ws.filter hasOverdue
  let recs3 := recs2 ++
    (if 0 < withOverdue.length then
      [{ rtype := "performance", severity := "critical"
         title := "Geciken Görevler"
         affectedUsers := withOverdue.map overdueLabel }]
    else [])
  let lowScore := lowScoreUsers ws
  recs3 ++
    (if 0 < lowScore.length then
      [{ rtype := "performance", severity := "warning"
         title := "Düşük Performans Puanı"
         affectedUsers := lowScore.map (fun u => u.full_name) }]
    else [])

/-- Declarative reading of §4.5 of the spec, for comparison with
`recommendationsOf`: the four candidate entries in rule order 1→4, each built
from the matching subset of the same snapshot, keeping exactly those whose
match set is non-empty. -/
def recommendationsSpec (ws : List WorkUser) : List Recommendation :=
  ([{ rtype := "workload", severity := "warning"
      title := "Aşırı İş Yükü Tespit Edildi"
      affectedUsers := (ws.filter isOverloaded).map (fun u => u.full_name) },
    { rtype := "workload", severity := "info"
      title := "Düşük İş Yükü"
      affectedUsers := (ws.filter isUnderutilized).map (fun u => u.full_name) },
    { rtype := "performance", severity := "critical"
      title := "Geciken Görevler"
      affectedUsers := (ws.filter hasOverdue).map overdueLabel },
    { rtype := "performance", severity := "warning"
      title := "Düşük Performans Puanı"
      affectedUsers := (lowScoreUsers ws).map (fun u => u.full_name) }] :
      List Recommendation).filter (fun r => !r.affectedUsers.isEmpty)

/-! ## TTL response cache (spec-modelled)

The cache middleware lives in src/middleware/cache, which is not present under
src/ (the analytics routes only mount `cacheMiddleware(ttl)` at lines 85, 188
and 255).  Its key and store are therefore modelled from §4.6 of the spec. -/

/-- Modelled from the spec: the caller's effective scope entering the cache
key — admin, or the specific non-admin caller's id (§4.6). -/
inductive CallerScope where
  | admin
  | member (uid : String)
deriving DecidableEq

/-- Modelled from the spec: the scope of a resolved caller `{ id, role }`. -/
def effectiveScope (isAdmin : Bool) (uid : String) : CallerScope :=
  if isAdmin then CallerScope.admin else CallerScope.member uid

/-- Modelled from the spec: a cache key incorporates the logical route, the
caller's effective scope, and the result-affecting query parameters (§4.6). -/
structure CacheKey where
  route : String
  scope : CallerScope
  params : List (String × String)
deriving DecidableEq

/-- Modelled from the spec: a stored cache entry (key, payload, created_at,
ttl) (§3, CacheEntry). -/
structure CacheEntry where
  key : CacheKey
  payload : String
  created_at : Nat
  ttl : Nat
deriving DecidableEq

/-- Modelled from the spec: `put(key, payload, ttl)` stores a fresh entry. -/
def cachePut (store : List CacheEntry) (k : CacheKey) (payload : String)
    (created ttl : Nat) : List CacheEntry :=
  { key := k, payload := payload, created_at := created, ttl := ttl } :: store

/-- Modelled from the spec: `get(key)` serves the first entry under exactly
this key that is still valid (`now < created_at + ttl`); expired or
other-keyed entries are treated as absent (§4.6). -/
def cacheGet (store : List CacheEntry) (k : CacheKey) (now : Nat) : Option String :=
  match store with
  | [] => none
  | e :: rest =>
      if e.key == k && decide (now < e.created_at + e.ttl) then some e.payload
      else cacheGet rest k now

/-! ## Spec-side readings used to compare code behaviour with the spec -/

/-- Follows the spec's words (§4.3): the number of scoped tasks — with no
creation-window restriction — whose creation date truncated to a UTC calendar
day equals the bucket date `d`. -/
def specCreatedCount (isAdmin : Bool) (uid : String) (d : Nat)
    (ds : List Task) : Nat :=
  ((ds.filter (scopeTask isAdmin uid)).filter
    (fun t => dayOfHour t.created_at == d)).length

/-- Follows the spec's words (§4.4): tasks of a profile completed on or after
the start of the current calendar week, i.e. the most recent Sunday at
00:00 UTC. -/
def specCompletedThisWeek (uid : String) (now : Nat) (ds : List Task) : Nat :=
  (ds.filter (fun t =>
    t.assigned_to == some uid && t.status == TaskStatus.completed
      && (match t.completed_at with
          | some c => decide ((now / 24 - getDayJS now) * 24 ≤ c)
          | none => false))).length

/-- The claim's completion-rate formula: `round(completed/total*100)` with the
division-by-zero case defined as 0. -/
def roundPct (c t : Nat) : Nat :=
  if 0 < t then mathRound100 c t else 0

/-- Modelled from the spec: assembling the cache key from the logical route,
the caller's effective scope and the query parameters (§4.6). -/
def cacheKeyFor (route : String) (s : CallerScope)
    (params : List (String × String)) : CacheKey :=
  { route := route, scope := s, params := params }

/-! ## Concrete sample data for evaluations -/

/-- A single not-yet-started task (visible to everyone). -/
def sampleNotStarted : Task :=
  { assigned_to := none, created_by := "a", status := TaskStatus.not_started
    priority := TaskPriority.low, due_date := none, deadline := none
    created_at := 0, updated_at := none, completed_at := none
    late_completion := false }

/-- A task created (and completed) at hour 1, i.e. on UTC day 0 but before the
trend window's start when the request arrives at hour 36 with `days = 1`. -/
def earlyDayZeroTask : Task :=
  { assigned_to := none, created_by := "u", status := TaskStatus.completed
    priority := TaskPriority.low, due_date := none, deadline := none
    created_at := 1, updated_at := some 1, completed_at := some 1
    late_completion := false }

/-- A task of employee `emp` completed on Sunday 03:00 (hour 75; UTC day 3 of
the epoch week is a Sunday). -/
def sundayMorningTask : Task :=
  { assigned_to := some "emp", created_by := "emp", status := TaskStatus.completed
    priority := TaskPriority.low, due_date := none, deadline := none
    created_at := 0, updated_at := some 75, completed_at := some 75
    late_completion := false }

/-- The profile owning `sundayMorningTask`. -/
def sampleEmployee : Profile :=
  { id := "emp", full_name := "E", email := "e@example.com"
    job_description := "", score := none, weekly_hours := none }

/-- A profile that is simultaneously overloaded (15 active tasks) and
low-scored (score 50), the spec's own example. -/
def overloadedLowScoreUser : WorkUser :=
  { id := "u1", full_name := "Ali", job_description := "dev"
    score := some 50, activeTasks := 15, overdueTasks := 0 }

/-- A workload entry whose stored score is exactly 0. -/
def zeroScoreUser : WorkUser :=
  { id := "u2", full_name := "Veli", job_description := "qa"
    score := some 0, activeTasks := 5, overdueTasks := 0 }

/-! ## Helper lemmas -/

theorem length_filter_mono (l : List α) (f g : α → Bool)
    (h : ∀ a, f a = true → g a = true) :
    (l.filter f).length ≤ (l.filter g).length := by
  induction l with
  | nil => simp
  | cons a t ih =>
      by_cases hf : f a = true
      · have hg := h a hf
        simp [List.filter, hf, hg]
        omega
      · have hf2 : f a = false := by
          cases hfa : f a
          · rfl
          · exact absurd hfa hf
        cases hg : g a
        · simp [List.filter, hf2, hg]
          omega
        · simp [List.filter, hf2, hg]
          omega

theorem mathRound100_le (c t : Nat) (hc : c ≤ t) (ht : 0 < t) :
    mathRound100 c t ≤ 100 := by
  unfold mathRound100
  have h2 : 0 < 2 * t := by omega
  have hlt : 200 * c + t < 101 * (2 * t) := by omega
  have := (Nat.div_lt_iff_lt_mul h2).mpr hlt
  omega

/-! ## Claim theorems -/

/-- C1: the dashboard byStatus buckets are claimed to partition the scoped
task set (`not_started + in_progress + completed + blocked = total`).  The
code violates this: the reused supabase query builder accumulates filters
across awaits, so by the time `tasksByPriority` is fetched the builder carries
`status = completed AND status = in_progress AND due_date < now AND
status ≠ completed` and returns no rows.  On a dataset holding one
not-started task (admin caller) every byStatus bucket is 0 while the total
is 1. -/
theorem c1_dashboard_status_sum_bug :
    ((dashboardCompute false true "a" 0 [sampleNotStarted] []).tasks.byStatus.not_started
      + (dashboardCompute false true "a" 0 [sampleNotStarted] []).tasks.byStatus.in_progress
      + (dashboardCompute false true "a" 0 [sampleNotStarted] []).tasks.byStatus.completed
      + (dashboardCompute false true "a" 0 [sampleNotStarted] []).tasks.byStatus.blocked = 0)
    ∧ (dashboardCompute false true "a" 0 [sampleNotStarted] []).tasks.total = 1 := by
  decide

/-- C2 counterexample: the claim's "completionRate equals 0 exactly when
total = 0" fails — a dataset with one not-started task has completionRate 0
with total 1. -/
theorem c2_rate_zero_with_positive_total :
    (dashboardCompute false true "a" 0 [sampleNotStarted] []).tasks.completionRate = 0
    ∧ (dashboardCompute false true "a" 0 [sampleNotStarted] []).tasks.total ≠ 0 := by
  decide

/-- C2 amended: the dashboard completionRate equals
`round(completed / total * 100)` with the division-by-zero case defined as 0
(never an error), the result always lies in [0, 100], and it equals 0
whenever total = 0 (also with total > 0 when too few tasks are completed). -/
theorem c2_completion_rate_amended (dbFail isAdmin : Bool) (uid : String)
    (now : Nat) (tasksTable : List Task) (issuesTable : List Issue) :
    (dashboardCompute dbFail isAdmin uid now tasksTable issuesTable).tasks.completionRate
      = roundPct
          (dashboardCompute dbFail isAdmin uid now tasksTable issuesTable).tasks.completed
          (dashboardCompute dbFail isAdmin uid now tasksTable issuesTable).tasks.total
    ∧ (dashboardCompute dbFail isAdmin uid now tasksTable issuesTable).tasks.completionRate ≤ 100
    ∧ ((dashboardCompute dbFail isAdmin uid now tasksTable issuesTable).tasks.total = 0 →
        (dashboardCompute dbFail isAdmin uid now tasksTable issuesTable).tasks.completionRate = 0) := by
  cases dbFail
  · refine ⟨rfl, ?_, ?_⟩
    · show (if 0 < (tasksTable.filter _).length then mathRound100 _ _ else 0) ≤ 100
      by_cases h : 0 < (tasksTable.filter
          (fun t => scopeTask isAdmin uid t)).length
      · have hle : (tasksTable.filter
            (fun t => scopeTask isAdmin uid t && t.status == TaskStatus.completed)).length
            ≤ (tasksTable.filter (fun t => scopeTask isAdmin uid t)).length := by
          apply length_filter_mono
          intro a ha
          exact (Bool.and_eq_true _ _ |>.mp ha).1
        simp only [h, if_true]
        exact mathRound100_le _ _ hle h
      · simp [h]
    · intro h0
      have h0' : (tasksTable.filter (fun t => scopeTask isAdmin uid t)).length = 0 := h0
      show (if 0 < (tasksTable.filter _).length then mathRound100 _ _ else 0) = 0
      simp [h0']
  · exact ⟨rfl, Nat.zero_le 100, fun _ => rfl⟩

/-- C2 amended witness: on an empty task table the total is 0 and the
completionRate is 0. -/
theorem c2_completion_rate_amended_witness :
    (dashboardCompute false true "w" 0 [] []).tasks.completionRate = 0 :=
  (c2_completion_rate_amended false true "w" 0 [] []).2.2 (by decide)

/-- C4: a non-positive `days` is neither rejected nor clamped: `days=0` parses
to 0, the bucket loop runs zero times, and the route answers 200 with a
zero-length bucket sequence — exactly what the claim says must never
happen. -/
theorem c4_trend_days_zero_bug :
    trendHandler (some "0") true "u" 100 none []
      = { status := 200, error := none, message := none, data := some [] } := by
  decide

/-- C3 counterexample: with `days = 1` and the request arriving at hour 36
(day 1, 12:00), a task created at hour 1 — on UTC day 0, the first (and only)
bucket's date — is excluded by the fetch window `created_at ≥ now - 24h`
(hour 12), so the bucket reports `created = 0` although the scoped dataset
contains one task created on that calendar day (the spec-side count is 1). -/
theorem c3_trend_window_counterexample :
    taskCompletionTrend true "u" 36 1 [earlyDayZeroTask]
        = [{ date := 0, created := 0, completed := 0 }]
    ∧ specCreatedCount true "u" 0 [earlyDayZeroTask] = 1 := by
  decide

/-- C3 amended: the trend output is exactly `days` buckets with contiguous
ascending UTC day numbers starting at the day of `now - days·24h`, where each
bucket's `created` / `completed` count tasks **among the fetched window**
(scoped tasks with `created_at` in `[now - days·24h, now]`) whose creation
day / completion (status completed, `updated_at`) day equals the bucket
date. -/
theorem c3_trend_buckets_amended (isAdmin : Bool) (uid : String)
    (now days : Nat) (ds : List Task) :
    taskCompletionTrend isAdmin uid now days ds
      = (List.range days).map (fun i =>
          { date := (now - 24 * days) / 24 + i
            created := ((trendFetched isAdmin uid now days ds).filter
              (fun t => dayOfHour t.created_at == (now - 24 * days) / 24 + i)).length
            completed := ((trendFetched isAdmin uid now days ds).filter
              (fun t => t.status == TaskStatus.completed
                && (match t.updated_at with
                    | some u2 => dayOfHour u2 == (now - 24 * days) / 24 + i
                    | none => false))).length }) := by
  unfold taskCompletionTrend trendBuckets
  have hfun : ∀ i : Nat,
      dayOfHour (now - 24 * days + 24 * i) = (now - 24 * days) / 24 + i := by
    intro i
    unfold dayOfHour
    exact Nat.add_mul_div_left _ _ (by omega)
  apply List.map_congr_left
  intro i _
  simp only [hfun]

/-- C7: for every dataset, every additional per-metric filter `p`/`q`, and
every non-admin caller, the scoped count is at most the count under the admin
(match-all) scope, both for tasks and for issues. -/
theorem c7_nonadmin_count_le_admin (tasksTable : List Task)
    (issuesTable : List Issue) (uid : String)
    (p : Task → Bool) (q : Issue → Bool) :
    (tasksTable.filter (fun t => scopeTask false uid t && p t)).length
      ≤ (tasksTable.filter (fun t => scopeTask true uid t && p t)).length
    ∧ (issuesTable.filter (fun i => scopeIssue false uid i && q i)).length
      ≤ (issuesTable.filter (fun i => scopeIssue true uid i && q i)).length := by
  constructor
  · apply length_filter_mono
    intro a ha
    simp only [scopeTask, Bool.true_or, Bool.true_and]
    exact (Bool.and_eq_true _ _ |>.mp ha).2
  · apply length_filter_mono
    intro a ha
    simp only [scopeIssue, Bool.true_or, Bool.true_and]
    exact (Bool.and_eq_true _ _ |>.mp ha).2

/-- C8 counterexample: at hour 159 (Wednesday 15:00 UTC) the code's week
start is hour 87 — the most recent Sunday **at 15:00**, not at midnight — so
a task completed Sunday 03:00 (hour 75) is not counted, although the spec's
start-of-week count (most recent Sunday 00:00 UTC, hour 72) includes it. -/
theorem c8_week_start_counterexample :
    (employeeSummaryOf [sundayMorningTask] 159 sampleEmployee).completedThisWeek = 0
    ∧ specCompletedThisWeek "emp" 159 [sundayMorningTask] = 1 := by
  decide

/-- C8 amended: for every profile, `completedThisWeek` counts exactly the
tasks assigned to it with status completed whose `completed_at` is on or
after `now - getDay(now)·24h`, i.e. the most recent Sunday **at the request's
time of day** (UTC), not Sunday midnight. -/
theorem c8_completed_this_week_amended (tasksTable : List Task) (now : Nat)
    (p : Profile) :
    (employeeSummaryOf tasksTable now p).completedThisWeek
      = tasksTable.countP (fun t =>
          t.assigned_to == some p.id && t.status == TaskStatus.completed
            && (match t.completed_at with
                | some c => decide (weekStartJS now ≤ c)
                | none => false))
    ∧ ∀ t : Task,
        (t.assigned_to == some p.id && t.status == TaskStatus.completed
            && (match t.completed_at with
                | some c => decide (weekStartJS now ≤ c)
                | none => false)) = true
          ↔ (t.assigned_to = some p.id ∧ t.status = TaskStatus.completed
              ∧ ∃ c, t.completed_at = some c ∧ weekStartJS now ≤ c) := by
  constructor
  · rw [List.countP_eq_length_filter]
    rfl
  · intro t
    cases hc : t.completed_at with
    | none => simp [hc]
    | some c =>
        simp [hc, and_assoc]

/-- C10: the low-score rule reads `u.score || 100`, and JavaScript's `||`
replaces the falsy value 0 by the default 100, so a profile whose stored
score is exactly 0 never matches the `< 70` filter. -/
theorem c10_zero_score_default :
    jsScoreDefault (some 0) = 100
    ∧ ∀ (ws : List WorkUser) (u : WorkUser),
        u.score = some 0 → u ∉ lowScoreUsers ws := by
  refine ⟨rfl, ?_⟩
  intro ws u hscore hmem
  have h := (List.mem_filter.mp hmem).2
  rw [isLowScore, hscore] at h
  simp [jsScoreDefault] at h

/-- C10 witness: the zero-score workload entry is not in the low-score filter
of a snapshot containing it. -/
theorem c10_zero_score_default_witness :
    zeroScoreUser ∉ lowScoreUsers [zeroScoreUser] :=
  c10_zero_score_default.2 [zeroScoreUser] zeroScoreUser rfl

/-- C5: the four recommendation rules are evaluated independently against the
same workload snapshot, in source order 1→4, each contributing one entry
exactly when its match set is non-empty (equality with the declarative §4.5
reading); and a profile matching both the overloaded and the low-score rule
appears in both entries simultaneously. -/
theorem c5_recommendation_rules (ws : List WorkUser) :
    recommendationsOf ws = recommendationsSpec ws
    ∧ ∀ u : WorkUser, u ∈ ws → isOverloaded u = true → isLowScore u = true →
        (∃ r, r ∈ recommendationsOf ws ∧ r.title = "Aşırı İş Yükü Tespit Edildi"
          ∧ u.full_name ∈ r.affectedUsers)
        ∧ (∃ r, r ∈ recommendationsOf ws ∧ r.title = "Düşük Performans Puanı"
          ∧ u.full_name ∈ r.affectedUsers) := by
  constructor
  · cases h1 : ws.filter isOverloaded <;>
    cases h2 : ws.filter isUnderutilized <;>
    cases h3 : ws.filter hasOverdue <;>
    cases h4 : ws.filter isLowScore <;>
      simp [recommendationsOf, recommendationsSpec, lowScoreUsers, h1, h2, h3, h4]
  · intro u hmem hov hlow
    have hov_mem : u ∈ ws.filter isOverloaded := List.mem_filter.mpr ⟨hmem, hov⟩
    have hlow_mem : u ∈ ws.filter isLowScore := List.mem_filter.mpr ⟨hmem, hlow⟩
    have hpos1 : 0 < (ws.filter isOverloaded).length :=
      List.length_pos.mpr (List.ne_nil_of_mem hov_mem)
    have hpos4 : 0 < (lowScoreUsers ws).length :=
      List.length_pos.mpr (List.ne_nil_of_mem (by rw [lowScoreUsers]; exact hlow_mem))
    constructor
    · refine ⟨{ rtype := "workload", severity := "warning"
                title := "Aşırı İş Yükü Tespit Edildi"
                affectedUsers := (ws.filter isOverloaded).map (fun v => v.full_name) },
        ?_, rfl, List.mem_map_of_mem _ hov_mem⟩
      simp only [recommendationsOf, if_pos hpos1]
      exact List.mem_append_left _ (List.mem_append_left _
        (List.mem_append_left _ (List.mem_singleton.mpr rfl)))
    · refine ⟨{ rtype := "performance", severity := "warning"
                title := "Düşük Performans Puanı"
                affectedUsers := (lowScoreUsers ws).map (fun v => v.full_name) },
        ?_, rfl, List.mem_map_of_mem _ (by rw [lowScoreUsers]; exact hlow_mem)⟩
      simp only [recommendationsOf, if_pos hpos4]
      exact List.mem_append_right _ (List.mem_singleton.mpr rfl)

/-- C5 witness: a snapshot holding the spec's example profile (15 active
tasks, score 50) yields both the overloaded and the low-score entry, each
naming that profile. -/
theorem c5_recommendation_rules_witness :
    (∃ r, r ∈ recommendationsOf [overloadedLowScoreUser]
        ∧ r.title = "Aşırı İş Yükü Tespit Edildi"
        ∧ overloadedLowScoreUser.full_name ∈ r.affectedUsers)
    ∧ (∃ r, r ∈ recommendationsOf [overloadedLowScoreUser]
        ∧ r.title = "Düşük Performans Puanı"
        ∧ overloadedLowScoreUser.full_name ∈ r.affectedUsers) :=
  (c5_recommendation_rules [overloadedLowScoreUser]).2 overloadedLowScoreUser
    (by decide) (by decide) (by decide)

/-- C6 counterexample: a failing store query on the dashboard route is not
surfaced as 400 — the route never reads the `error` field there and answers
200 with zeroed metrics; and the 500 catch handler copies the exception's
message into the response, exposing the specific cause. -/
theorem c6_error_responses_counterexample :
    (dashboardHandler true true "a" 0 [] []).status = 200
    ∧ (catchResponse (some "boom")).message = "boom" := by
  decide

/-- C6 amended: on the routes that do check the store's error indicator (such
as task-completion-trend) a failing query yields HTTP 400 carrying the
underlying message; the dashboard route ignores query errors and responds 200
with zeroed counts; and an unexpected exception yields HTTP 500 whose body
carries the generic label together with the exception's own message. -/
theorem c6_error_handling_amended (msg emsg : String) (isAdmin : Bool)
    (uid : String) (now : Nat) (ds tasksTable : List Task)
    (issuesTable : List Issue) :
    trendHandler (some "30") isAdmin uid now (some msg) ds
      = { status := 400, error := some "Database error"
          message := some msg, data := none }
    ∧ (dashboardHandler true isAdmin uid now tasksTable issuesTable).status = 200
    ∧ catchResponse (some emsg)
      = { status := 500, error := "Internal server error", message := emsg } :=
  ⟨rfl, rfl, rfl⟩

/-- C9 (cache middleware modelled from the spec, §4.6): differently scoped
callers — two distinct non-admin ids, or admin versus non-admin — produce
different cache keys for the same route and query parameters, so a payload
stored by one caller is invisible to the other's lookup. -/
theorem c9_cache_scope_isolation (route : String)
    (params : List (String × String)) (a1 a2 : Bool) (u1 u2 : String)
    (hscope : effectiveScope a1 u1 ≠ effectiveScope a2 u2) :
    cacheKeyFor route (effectiveScope a1 u1) params
      ≠ cacheKeyFor route (effectiveScope a2 u2) params
    ∧ ∀ (store : List CacheEntry) (payload : String) (created ttl now : Nat),
        cacheGet (cachePut store (cacheKeyFor route (effectiveScope a1 u1) params)
            payload created ttl)
          (cacheKeyFor route (effectiveScope a2 u2) params) now
        = cacheGet store (cacheKeyFor route (effectiveScope a2 u2) params) now := by
  have hkey : cacheKeyFor route (effectiveScope a1 u1) params
      ≠ cacheKeyFor route (effectiveScope a2 u2) params := by
    intro h
    exact hscope (congrArg CacheKey.scope h)
  refine ⟨hkey, ?_⟩
  intro store payload created ttl now
  simp only [cachePut, cacheGet]
  rw [beq_eq_false_iff_ne.mpr hkey]
  simp

/-- C9 witness: an entry cached for non-admin caller `alice` on the dashboard
route is not served to non-admin caller `bob` with the same route and
parameters. -/
theorem c9_cache_scope_isolation_witness :
    cacheGet (cachePut []
        (cacheKeyFor "/api/analytics/dashboard" (effectiveScope false "alice") [])
        "payload-for-alice" 0 300)
      (cacheKeyFor "/api/analytics/dashboard" (effectiveScope false "bob") []) 10
    = cacheGet []
        (cacheKeyFor "/api/analytics/dashboard" (effectiveScope false "bob") []) 10 :=
  (c9_cache_scope_isolation "/api/analytics/dashboard" [] false false
    "alice" "bob" (by decide)).2 [] "payload-for-alice" 0 300 10

end RaporAnalytics
